import Mathlib

set_option maxHeartbeats 1000000

/-!
Shallow embedding of the react context demo: the shared user value, the
theme value, the login handler, the dark mode toggle handler, and the
conditional renders of Header and Profile, translated from the sources.
The publish/subscribe container standing for the framework re-render
mechanism is modelled from the spec where noted.
-/

/-- The User record of src/unnamed/part_000 (data.ts): a name and an
ordered sequence of interests. -/
structure User where
  name : String
  interests : List String
deriving DecidableEq

/-- The defaultUser constant of src/unnamed/part_000. -/
def defaultUser : User :=
  { name := "Duane"
    interests := ["Coding", "Biking", "Words ending in \x27ing\x27"] }

/-- The handleLogin function of Header (src/unnamed/part_003, lines 15-21):
if the user is non-null set it to null, otherwise set it to defaultUser. -/
def handleLogin (user : Option User) : Option User :=
  match user with
  | some _ => none
  | none => some defaultUser

/-- The handleToggleTheme function of DarkModeToggle (src/unnamed/part_002):
the new theme is dark when the checkbox is checked and light otherwise. -/
def handleToggleTheme (checked : Bool) : String :=
  if checked then "dark" else "light"

/-- The label of the ThemedButton rendered by Header
(src/unnamed/part_003, line 28): Logout when the user is non-null,
Login otherwise. -/
def headerButtonLabel (user : Option User) : String :=
  match user with
  | some _ => "Logout"
  | none => "Login"

/-- The shape of what Profile renders: either the static placeholder
text, or the heading together with the interests and theme forwarded to
Interests. -/
inductive ProfileRender where
  | placeholder (text : String)
  | loggedIn (heading : String) (interests : List String) (theme : String)
deriving DecidableEq

/-- The Profile component (src/react-ts-hooks-use-context/src/components/Profile.tsx):
renders the placeholder when the user is null, and otherwise the heading
with the interests list forwarded verbatim to Interests. -/
def renderProfile (user : Option User) (theme : String) : ProfileRender :=
  match user with
  | none => ProfileRender.placeholder "Please Login To View Profile"
  | some u => ProfileRender.loggedIn (u.name ++ "\x27s Profile") u.interests theme

/-- The state held by App (src/unnamed/part_001) together with the
UserProvider (src/react-ts-hooks-use-context/src/context/user.tsx): the
theme string and the shared user value. -/
structure AppState where
  theme : String
  user : Option User
deriving DecidableEq

/-- The initial state: App initialises the theme to dark
(src/unnamed/part_001, line 9) and the UserProvider initialises the user
to null (src/react-ts-hooks-use-context/src/context/user.tsx, line 19). -/
def initialState : AppState :=
  { theme := "dark", user := none }

/-- The user interface events the demo reacts to: a click on the
login/logout button, and a change of the dark mode checkbox carrying its
checked flag. -/
inductive Event where
  | loginClick
  | themeToggle (checked : Bool)
deriving DecidableEq

/-- One event step: a login click applies handleLogin to the user value,
a toggle applies handleToggleTheme to the theme value. Each handler
touches only its own piece of state, as in the sources. -/
def step (s : AppState) (e : Event) : AppState :=
  match e with
  | Event.loginClick => { s with user := handleLogin s.user }
  | Event.themeToggle checked => { s with theme := handleToggleTheme checked }

/-- The state reached from the initial state after a sequence of events. -/
def runEvents (es : List Event) : AppState :=
  es.foldl step initialState

/-- Modelled from the spec: the SharedCell of section 4.1, the
publish/subscribe value container standing for the framework re-render
mechanism, which is not part of the repository sources. It holds the
current value and the set of registered listeners, kept as a list in
registration order. -/
structure SharedCell (T : Type) where
  value : T
  listeners : List Nat

/-- Modelled from the spec: write replaces the value and synchronously
notifies every currently registered listener with the new value, in
registration order. Returns the updated cell and the emitted
(listener, payload) pairs. -/
def SharedCell.write {T : Type} (c : SharedCell T) (v : T) :
    SharedCell T × List (Nat × T) :=
  ({ c with value := v }, c.listeners.map fun l => (l, v))

/-- Activating the login/logout control on the user cell: handleLogin of
src/unnamed/part_003 computes the new value, which is written to the
cell. -/
def loginEvent (c : SharedCell (Option User)) :
    SharedCell (Option User) × List (Nat × Option User) :=
  c.write (handleLogin c.value)

/-- The two independent cells of the spec (user and theme), for the
isolation claim. -/
structure CellsState where
  userCell : SharedCell (Option User)
  themeCell : SharedCell String

/-- One event step on the two cells: a login click writes only to the
user cell, a theme toggle writes only to the theme cell. The result
carries the notifications emitted on each cell. -/
def stepCells (s : CellsState) (e : Event) :
    CellsState × List (Nat × Option User) × List (Nat × String) :=
  match e with
  | Event.loginClick =>
      let r := s.userCell.write (handleLogin s.userCell.value)
      ({ s with userCell := r.fst }, r.snd, [])
  | Event.themeToggle checked =>
      let r := s.themeCell.write (handleToggleTheme checked)
      ({ s with themeCell := r.fst }, [], r.snd)

/-- A field of the dummy context default object: either undefined or a
value. -/
inductive FieldVal (T : Type) where
  | undef
  | val (x : T)
deriving DecidableEq

/-- The shape of the value read from the user context: the user field
and whether a usable setUser function is present. -/
structure UserContextValue where
  user : FieldVal (Option User)
  hasSetUser : Bool
deriving DecidableEq

/-- The default value handed to React.createContext in
src/react-ts-hooks-use-context/src/context/user.tsx, line 9: an empty
object cast to UserContextType, so its user and setUser fields are
undefined. -/
def contextDefault : UserContextValue :=
  { user := FieldVal.undef, hasSetUser := false }

/-- Reading the user context from a consumer with no enclosing Provider:
React returns the createContext default value. The read succeeds and
yields the dummy object; no missing provider error is raised. -/
def useUserContextOutsideProvider : Except String UserContextValue :=
  Except.ok contextDefault

/- Helper lemmas shared by the theorems below. -/

lemma length_filter_fst_map {T : Type} (xs : List Nat) (v : T) (l : Nat) :
    ((xs.map fun x => (x, v)).filter fun p => p.fst == l).length = xs.count l := by
  induction xs with
  | nil => rfl
  | cons a t ih =>
      by_cases h : a = l
      · subst h
        simp [List.filter_cons, List.count_cons, ih]
      · simp [List.filter_cons, List.count_cons, h, ih]

lemma user_step_cases (s : AppState) (e : Event)
    (h : s.user = none ∨ s.user = some defaultUser) :
    (step s e).user = none ∨ (step s e).user = some defaultUser := by
  cases e with
  | loginClick =>
      rcases h with h | h <;> simp [step, handleLogin, h]
  | themeToggle checked =>
      simpa [step] using h

lemma foldl_user_inv (es : List Event) :
    ∀ (s : AppState), (s.user = none ∨ s.user = some defaultUser) →
    ((es.foldl step s).user = none ∨ (es.foldl step s).user = some defaultUser) := by
  induction es with
  | nil => intro s h; exact h
  | cons e t ih => intro s h; exact ih (step s e) (user_step_cases s e h)

lemma run_user_inv (es : List Event) :
    (runEvents es).user = none ∨ (runEvents es).user = some defaultUser :=
  foldl_user_inv es initialState (Or.inl rfl)

lemma theme_step_cases (s : AppState) (e : Event)
    (h : s.theme = "dark" ∨ s.theme = "light") :
    (step s e).theme = "dark" ∨ (step s e).theme = "light" := by
  cases e with
  | loginClick => simpa [step] using h
  | themeToggle checked =>
      cases checked <;> simp [step, handleToggleTheme]

lemma foldl_theme_inv (es : List Event) :
    ∀ (s : AppState), (s.theme = "dark" ∨ s.theme = "light") →
    ((es.foldl step s).theme = "dark" ∨ (es.foldl step s).theme = "light") := by
  induction es with
  | nil => intro s h; exact h
  | cons e t ih => intro s h; exact ih (step s e) (theme_step_cases s e h)

lemma run_theme_inv (es : List Event) :
    (runEvents es).theme = "dark" ∨ (runEvents es).theme = "light" :=
  foldl_theme_inv es initialState (Or.inl rfl)

/-- C1: from a cell holding null, activating the login control sets the
value to the fixed defaultUser record, and every registered listener is
notified exactly once, with exactly this record as payload. -/
theorem login_transition (c : SharedCell (Option User)) (l : Nat)
    (hv : c.value = none) (hnd : c.listeners.Nodup) (hl : l ∈ c.listeners) :
    defaultUser = { name := "Duane",
                    interests := ["Coding", "Biking", "Words ending in \x27ing\x27"] } ∧
    (loginEvent c).fst.value = some defaultUser ∧
    ((loginEvent c).snd.filter fun p => p.fst == l).length = 1 ∧
    ∀ p ∈ (loginEvent c).snd, p.snd = some defaultUser := by
  refine ⟨rfl, ?_, ?_, ?_⟩
  · simp [loginEvent, SharedCell.write, hv, handleLogin]
  · rw [show (loginEvent c).snd = c.listeners.map fun x => (x, some defaultUser) by
        simp [loginEvent, SharedCell.write, hv, handleLogin]]
    rw [length_filter_fst_map]
    exact List.count_eq_one_of_mem hnd hl
  · intro p hp
    rw [show (loginEvent c).snd = c.listeners.map fun x => (x, some defaultUser) by
        simp [loginEvent, SharedCell.write, hv, handleLogin]] at hp
    obtain ⟨x, hx, rfl⟩ := List.mem_map.mp hp
    rfl

/-- C1 witness: the login transition evaluated on a concrete logged-out
cell with two listeners. -/
theorem login_transition_witness :
    (loginEvent ⟨none, [0, 1]⟩).fst.value = some defaultUser ∧
    ((loginEvent ⟨none, [0, 1]⟩).snd.filter fun p => p.fst == 0).length = 1 :=
  ⟨(login_transition ⟨none, [0, 1]⟩ 0 rfl (by decide) (by decide)).2.1,
   (login_transition ⟨none, [0, 1]⟩ 0 rfl (by decide) (by decide)).2.2.1⟩

/-- C2: Profile renders the placeholder text exactly when the user value
is null, and for any user record renders the name followed by the
possessive Profile heading with the interests forwarded verbatim. -/
theorem profile_render (user : Option User) (theme : String) :
    (renderProfile user theme =
      ProfileRender.placeholder "Please Login To View Profile" ↔ user = none) ∧
    ∀ u : User, user = some u →
      renderProfile user theme =
        ProfileRender.loggedIn (u.name ++ "\x27s Profile") u.interests theme := by
  cases user with
  | none =>
      refine ⟨by simp [renderProfile], ?_⟩
      intro u h
      cases h
  | some u =>
      refine ⟨?_, ?_⟩
      · constructor
        · intro h
          simp [renderProfile] at h
        · intro h
          cases h
      · intro v h
        cases h
        rfl

/-- C2 witness: the render evaluated on the default record and on a
synthetic record with an empty interests sequence. -/
theorem profile_render_witness :
    renderProfile (some defaultUser) "dark" =
      ProfileRender.loggedIn ("Duane" ++ "\x27s Profile") defaultUser.interests "dark" ∧
    renderProfile (some { name := "Eve", interests := [] }) "light" =
      ProfileRender.loggedIn ("Eve" ++ "\x27s Profile") [] "light" :=
  ⟨(profile_render (some defaultUser) "dark").2 defaultUser rfl,
   (profile_render (some { name := "Eve", interests := [] }) "light").2
     { name := "Eve", interests := [] } rfl⟩

/-- C3: in the freshly mounted state, before any event, the shared user
value is null and the theme value is dark. -/
theorem initial_state :
    initialState.user = none ∧ initialState.theme = "dark" :=
  ⟨rfl, rfl⟩

/-- C4: from a cell holding any non-null user record, activating the
logout control sets the value to null, and every registered listener is
notified exactly once, with null as payload. -/
theorem logout_transition (c : SharedCell (Option User)) (u : User) (l : Nat)
    (hv : c.value = some u) (hnd : c.listeners.Nodup) (hl : l ∈ c.listeners) :
    (loginEvent c).fst.value = none ∧
    ((loginEvent c).snd.filter fun p => p.fst == l).length = 1 ∧
    ∀ p ∈ (loginEvent c).snd, p.snd = none := by
  refine ⟨?_, ?_, ?_⟩
  · simp [loginEvent, SharedCell.write, hv, handleLogin]
  · rw [show (loginEvent c).snd = c.listeners.map fun x => (x, (none : Option User)) by
        simp [loginEvent, SharedCell.write, hv, handleLogin]]
    rw [length_filter_fst_map]
    exact List.count_eq_one_of_mem hnd hl
  · intro p hp
    rw [show (loginEvent c).snd = c.listeners.map fun x => (x, (none : Option User)) by
        simp [loginEvent, SharedCell.write, hv, handleLogin]] at hp
    obtain ⟨x, hx, rfl⟩ := List.mem_map.mp hp
    rfl

/-- C4 witness: the logout transition evaluated on a concrete logged-in
cell with one listener. -/
theorem logout_transition_witness :
    (loginEvent ⟨some defaultUser, [0]⟩).fst.value = none ∧
    ((loginEvent ⟨some defaultUser, [0]⟩).snd.filter fun p => p.fst == 0).length = 1 :=
  ⟨(logout_transition ⟨some defaultUser, [0]⟩ defaultUser 0 rfl (by decide) (by decide)).1,
   (logout_transition ⟨some defaultUser, [0]⟩ defaultUser 0 rfl (by decide) (by decide)).2.1⟩

/-- C5: the claim says a consumer read outside any Provider fails fast
with a missing provider error; the code instead hands back the dummy
createContext default object, whose user field is undefined, and the
read succeeds. This theorem evaluates the code at the failing input. -/
theorem missing_provider_no_error :
    useUserContextOutsideProvider = Except.ok contextDefault ∧
    contextDefault.user = FieldVal.undef ∧
    contextDefault.hasSetUser = false ∧
    ∀ msg : String, useUserContextOutsideProvider ≠ Except.error msg := by
  refine ⟨rfl, rfl, rfl, ?_⟩
  intro msg h
  cases h

/-- C6: Header renders the Login label exactly when the user value is
null, and the Logout label exactly when it is a user record. -/
theorem header_labels (user : Option User) :
    (headerButtonLabel user = "Login" ↔ user = none) ∧
    (headerButtonLabel user = "Logout" ↔ ∃ u : User, user = some u) := by
  cases user with
  | none =>
      refine ⟨by simp [headerButtonLabel], ?_⟩
      constructor
      · intro h
        exact absurd h (by decide)
      · rintro ⟨u, h⟩
        cases h
  | some u =>
      refine ⟨?_, ?_⟩
      · constructor
        · intro h
          simp [headerButtonLabel] at h
        · intro h
          cases h
      · exact ⟨fun _ => ⟨u, rfl⟩, fun _ => rfl⟩

/-- C7: the theme is initialised to dark, the toggle handler writes dark
when checked and light otherwise, and in every reachable state the theme
is one of dark or light. -/
theorem theme_invariant :
    initialState.theme = "dark" ∧
    handleToggleTheme true = "dark" ∧
    handleToggleTheme false = "light" ∧
    ∀ es : List Event, (runEvents es).theme = "dark" ∨ (runEvents es).theme = "light" :=
  ⟨rfl, rfl, rfl, run_theme_inv⟩

/-- C8: a login click changes only the user value and emits no
notification on the theme cell; a theme toggle changes only the theme
value and emits no notification on the user cell. -/
theorem isolation (s : AppState) (cs : CellsState) (checked : Bool) :
    (step s Event.loginClick).theme = s.theme ∧
    (step s (Event.themeToggle checked)).user = s.user ∧
    (stepCells cs Event.loginClick).fst.themeCell = cs.themeCell ∧
    (stepCells cs Event.loginClick).snd.snd = [] ∧
    (stepCells cs (Event.themeToggle checked)).fst.userCell = cs.userCell ∧
    (stepCells cs (Event.themeToggle checked)).snd.fst = [] :=
  ⟨rfl, rfl, rfl, rfl, rfl, rfl⟩

/-- C9: in every state reachable through the events, the shared user
value is either null or exactly the defaultUser record; no other record
is ever written. -/
theorem user_reachable_invariant (es : List Event) :
    (runEvents es).user = none ∨ (runEvents es).user = some defaultUser :=
  run_user_inv es

/-- C10: on every reachable state, activating the login/logout control
twice in a row restores the user value. -/
theorem login_involution (es : List Event) :
    (step (step (runEvents es) Event.loginClick) Event.loginClick).user =
      (runEvents es).user := by
  rcases run_user_inv es with h | h <;> simp [step, handleLogin, h]
